import Mathlib

/-!
Verification of the Azure ML pipeline lab artifacts.

The repository consists of a Kubernetes sidecar manifest (a secret-poll shell
loop), and a notebook that writes five pipeline stage scripts (ingest.py,
preprocess.py, train.py, evaluate.py, deploy.py, score.py) and wires them into
a five-stage pipeline of PythonScriptStep declarations.  This file is a
shallow embedding of those scripts and declarations, with theorems checking
the specification claims against them.
-/

namespace AzureLab

/-! ## Deploy stage (deploy.py)

A registered model in the model registry carries a name, an artifact path and
a tag map with the accuracy and the test-data identity used to compute it.
Accuracy tags are modelled as rationals. -/

structure RegisteredModel where
  name : String
  modelPath : String
  accuracyTag : ℚ
  testDataTag : String
  deriving DecidableEq, Repr

/-- deploy.py register_model: the body registers with
model_path = model_dir ++ "/model.pt" where model_dir is the enclosing
script-level global (passed here as the explicit last argument), and with the
literal name iris-classification-pipeline; the output_dir and model_name
parameters of the function are not used by the body. -/
def register_model (output_dir model_name : String) (accuracy : ℚ)
    (test_dir : String) (model_dir : String) : RegisteredModel :=
  { name := "iris-classification-pipeline"
    modelPath := model_dir ++ "/model.pt"
    accuracyTag := accuracy
    testDataTag := test_dir }

/-- State of the registry and serving endpoint seen by deploy.py under the
fixed model name iris-classification-pipeline and service name
iris-classification-service: the registration (if any) and the model served by
the endpoint (if any endpoint is published). -/
structure DeployState where
  registered : Option RegisteredModel
  endpoint : Option RegisteredModel
  deriving DecidableEq, Repr

/-- Observable registry and webservice side effects of a deploy.py run. -/
inductive DeployEvent where
  | register (m : RegisteredModel)
  | deleteService
  | deployService (m : RegisteredModel)
  deriving DecidableEq, Repr

/-- deploy.py gate: a Model(workspace, model_name) lookup that raises when no
registration exists (the except branch registers), and otherwise the test
prev_test_dir != test_dir or prev_accuracy >= accuracy. -/
def registrationGate (st : DeployState) (accuracy : ℚ) (test_dir : String) :
    Bool :=
  match st.registered with
  | none => true
  | some prev => prev.testDataTag != test_dir || prev.accuracyTag >= accuracy

/-- deploy.py main flow: read the previous registration, register the new
model when the gate fires (setting new_model = True), and in that case delete
any existing webservice of the service name and deploy a new one serving the
registered model; otherwise only look up the existing service.  Returns the
final state and the list of side effects in program order. -/
def deployStage (st : DeployState) (accuracy : ℚ)
    (test_dir model_dir : String) : DeployState × List DeployEvent :=
  if registrationGate st accuracy test_dir then
    let m := register_model model_dir "iris-classification-pipeline" accuracy
      test_dir model_dir
    let deleteEvents : List DeployEvent :=
      match st.endpoint with
      | some _ => [DeployEvent.deleteService]
      | none => []
    ({ registered := some m, endpoint := some m },
      DeployEvent.register m :: deleteEvents ++ [DeployEvent.deployService m])
  else
    (st, [])

/-- Registration condition as the specification words it: no prior
registration exists, or the stored test-data identity differs from the
current one, or the newly computed accuracy is not strictly improved over
the previously stored accuracy. -/
def registrationGateSpec (st : DeployState) (accuracy : ℚ)
    (test_dir : String) : Prop :=
  st.registered = none ∨
    ∃ prev, st.registered = some prev ∧
      (prev.testDataTag ≠ test_dir ∨ ¬ (prev.accuracyTag < accuracy))

theorem registrationGate_eq_spec (st : DeployState) (accuracy : ℚ)
    (test_dir : String) :
    registrationGate st accuracy test_dir = true ↔
      registrationGateSpec st accuracy test_dir := by
  cases hst : st.registered with
  | none => simp [registrationGate, registrationGateSpec, hst]
  | some prev =>
    simp [registrationGate, registrationGateSpec, hst, bne_iff_ne,
      ge_iff_le, ← not_lt, decide_eq_true_iff]

/-- C2: deploy.py registers the new model, deletes any existing endpoint and
deploys a new endpoint serving the newly registered model exactly when no
prior registration exists, or the stored test-data identity differs, or the
new accuracy is not strictly improved; otherwise the state is unchanged and
no registry or webservice side effect occurs. -/
theorem deployStage_registers_iff_gateSpec (st : DeployState) (accuracy : ℚ)
    (test_dir model_dir : String) :
    ((∃ m, DeployEvent.register m ∈
        (deployStage st accuracy test_dir model_dir).2 ∧
        DeployEvent.deployService m ∈
          (deployStage st accuracy test_dir model_dir).2 ∧
        (deployStage st accuracy test_dir model_dir).1.registered = some m ∧
        (deployStage st accuracy test_dir model_dir).1.endpoint = some m) ↔
      registrationGateSpec st accuracy test_dir)
    ∧ (¬ registrationGateSpec st accuracy test_dir →
        deployStage st accuracy test_dir model_dir = (st, [])) := by
  have hgate := registrationGate_eq_spec st accuracy test_dir
  by_cases h : registrationGateSpec st accuracy test_dir
  · have hb : registrationGate st accuracy test_dir = true := hgate.mpr h
    constructor
    · simp only [deployStage, hb, if_true]
      refine ⟨fun _ => h, fun _ => ?_⟩
      refine ⟨register_model model_dir "iris-classification-pipeline" accuracy
        test_dir model_dir, ?_, ?_, rfl, rfl⟩
      · exact List.mem_cons_self _ _
      · cases st.endpoint <;> simp
    · exact fun hc => absurd h hc
  · have hb : registrationGate st accuracy test_dir = false := by
      cases hb : registrationGate st accuracy test_dir
      · rfl
      · exact absurd (hgate.mp hb) h
    constructor
    · simp only [deployStage, hb, if_false, Bool.false_eq_true]
      constructor
      · rintro ⟨m, hm, -⟩
        simp at hm
      · exact fun hc => absurd hc h
    · intro _
      simp [deployStage, hb]

/-- C2 witness: in a state with a prior registration of accuracy 90/100 on
test set A and a published endpoint, a new accuracy 95/100 on test set A
fails the gate and the deploy stage leaves the state untouched with no side
effects. -/
theorem deployStage_registers_iff_gateSpec_witness :
    deployStage
        ⟨some ⟨"iris-classification-pipeline", "md/model.pt", mkRat 90 100,
          "A"⟩,
         some ⟨"iris-classification-pipeline", "md/model.pt", mkRat 90 100,
          "A"⟩⟩
        (mkRat 95 100) "A" "md" =
      (⟨some ⟨"iris-classification-pipeline", "md/model.pt", mkRat 90 100,
          "A"⟩,
        some ⟨"iris-classification-pipeline", "md/model.pt", mkRat 90 100,
          "A"⟩⟩, []) :=
  (deployStage_registers_iff_gateSpec _ _ _ _).2 (by
    rintro (h | ⟨prev, hprev, h⟩)
    · exact Option.noConfusion h
    · simp only [Option.some.injEq] at hprev
      subst hprev
      rcases h with h | h
      · exact h rfl
      · exact h (by decide))

/-- C1: evaluation of the deploy gate at the claim scenario.  With a previous
registration of accuracy 90/100 on test set A, a run with new accuracy 85/100
on test set A performs a registration (the code registers when the previous
accuracy is greater or equal), and a run with new accuracy 95/100 on test set
A performs no registration and no endpoint side effect at all. -/
theorem deployStage_c1_scenario :
    (DeployEvent.register
        (register_model "md" "iris-classification-pipeline" (mkRat 85 100)
          "A" "md") ∈
      (deployStage
        ⟨some ⟨"iris-classification-pipeline", "md/model.pt", mkRat 90 100,
          "A"⟩, none⟩
        (mkRat 85 100) "A" "md").2)
    ∧ (deployStage
        ⟨some ⟨"iris-classification-pipeline", "md/model.pt", mkRat 90 100,
          "A"⟩, none⟩
        (mkRat 95 100) "A" "md").2 = [] := by
  constructor <;> decide

/-- C10: register_model does not depend on its output_dir and model_name
parameters, always registers under the fixed name
iris-classification-pipeline, and always takes the artifact from
model_dir ++ "/model.pt". -/
theorem register_model_ignores_output_dir_and_model_name
    (output_dir model_name output_dir₂ model_name₂ : String) (accuracy : ℚ)
    (test_dir model_dir : String) :
    register_model output_dir model_name accuracy test_dir model_dir =
        register_model output_dir₂ model_name₂ accuracy test_dir model_dir
    ∧ (register_model output_dir model_name accuracy test_dir
        model_dir).name = "iris-classification-pipeline"
    ∧ (register_model output_dir model_name accuracy test_dir
        model_dir).modelPath = model_dir ++ "/model.pt" :=
  ⟨rfl, rfl, rfl⟩

/-! ## Evaluate stage (evaluate.py) -/

/-- Modelled from the spec: sklearn.metrics.accuracy_score is library code
not present in src/; the spec describes it as the fraction of exact label
matches between predictions and labels. -/
def accuracy_score {α : Type} [DecidableEq α] (yTrue yPred : List α) : ℚ :=
  (((yTrue.zip yPred).countP fun p => decide (p.1 = p.2) : ℕ) : ℚ) /
    ((yTrue.length : ℕ) : ℚ)

/-- Names bound at module level by the import statements of evaluate.py:
from sklearn.metrics the names classification_report, confusion_matrix and
accuracy_score, from sklearn.svm the name SVC, and the modules pickle and
argparse.  The module os is not imported. -/
def evaluateImports : List String :=
  ["classification_report", "confusion_matrix", "accuracy_score", "SVC",
    "pickle", "argparse"]

/-- Python NameError raised when an unbound name is referenced. -/
inductive PyError where
  | nameError (missing : String)
  deriving DecidableEq, Repr

/-- Data available to evaluate.py after the three pickle loads succeed: the
loaded model (its predict method), the test features and the test labels. -/
structure EvalData (α : Type) where
  predict : List (List ℚ) → List α
  xTest : List (List ℚ)
  yTest : List α

/-- evaluate.py main flow after the loads: compute predictions and the
accuracy score, then evaluate os.path.exists(accuracy_dir); the name os
resolves only when the import list of the script binds it, otherwise a
NameError is raised there, before any write.  On success the single write
performed is the accuracy value into accuracy_dir ++ "/accuracy_file". -/
def evaluateStage {α : Type} [DecidableEq α] (scope : List String)
    (d : EvalData α) (accuracy_dir : String) :
    Except PyError (List (String × ℚ)) :=
  let predictions := d.predict d.xTest
  let accuracy := accuracy_score d.yTest predictions
  if scope.contains "os" then
    Except.ok [(accuracy_dir ++ "/accuracy_file", accuracy)]
  else
    Except.error (PyError.nameError "os")

/-- C3: every run of evaluate.py, whatever the successfully loaded model and
test split and whatever the accuracy directory, raises NameError on the
unbound name os at the directory-existence check and never reaches the
accuracy-file write. -/
theorem evaluateStage_raises_nameError {α : Type} [DecidableEq α]
    (d : EvalData α) (accuracy_dir : String) :
    evaluateStage evaluateImports d accuracy_dir =
      Except.error (PyError.nameError "os") := rfl

/-- C4: accuracy_score on a non-empty pair of equal-length label sequences is
1 when predictions and labels agree at every position and 0 when they agree
at no position. -/
theorem accuracy_score_perfect_and_disjoint {α : Type} [DecidableEq α]
    (yTrue yPred : List α) (hne : yTrue ≠ [])
    (hlen : yTrue.length = yPred.length) :
    (List.Forall₂ (fun a b => a = b) yTrue yPred →
      accuracy_score yTrue yPred = 1)
    ∧ (List.Forall₂ (fun a b => a ≠ b) yTrue yPred →
      accuracy_score yTrue yPred = 0) := by
  constructor
  · intro hall
    have hcount : (yTrue.zip yPred).countP (fun p => decide (p.1 = p.2)) =
        (yTrue.zip yPred).length := by
      rw [List.countP_eq_length]
      intro p hp
      obtain ⟨a, b⟩ := p
      exact decide_eq_true ((List.forall₂_iff_zip.mp hall).2 hp)
    have hzlen : (yTrue.zip yPred).length = yTrue.length := by
      rw [List.length_zip, hlen, Nat.min_self]
    have hlen0 : yTrue.length ≠ 0 := fun h0 => hne (List.eq_nil_of_length_eq_zero h0)
    rw [accuracy_score, hcount, hzlen]
    rw [div_self (by exact_mod_cast hlen0)]
  · intro hall
    have hcount : (yTrue.zip yPred).countP (fun p => decide (p.1 = p.2)) = 0 := by
      rw [List.countP_eq_zero]
      intro p hp
      obtain ⟨a, b⟩ := p
      simpa using (List.forall₂_iff_zip.mp hall).2 hp
    rw [accuracy_score, hcount]
    simp

/-- C4 witness: on the two-label test set where predictions match exactly the
accuracy is 1, and on the one where they match nowhere the accuracy is 0. -/
theorem accuracy_score_perfect_and_disjoint_witness :
    accuracy_score ["setosa", "virginica"] ["setosa", "virginica"] = 1
    ∧ accuracy_score ["setosa", "virginica"] ["virginica", "setosa"] = 0 :=
  ⟨(accuracy_score_perfect_and_disjoint ["setosa", "virginica"]
      ["setosa", "virginica"] (by decide) rfl).1
      (List.forall₂_same.mpr fun x _ => rfl),
   (accuracy_score_perfect_and_disjoint ["setosa", "virginica"]
      ["virginica", "setosa"] (by decide) rfl).2
      (by decide)⟩

/-! ## Preprocess stage (preprocess.py) -/

/-- Row of the iris dataset as read with the fixed column names
sepal-length, sepal-width, petal-length, petal-width and class. -/
structure IrisRow (α : Type) where
  sepalLength : α
  sepalWidth : α
  petalLength : α
  petalWidth : α
  classLabel : α
  deriving DecidableEq, Repr

/-- Columns 0 to 3 of a row, the feature slice array[:,0:4]. -/
def IrisRow.features {α : Type} (r : IrisRow α) : List α :=
  [r.sepalLength, r.sepalWidth, r.petalLength, r.petalWidth]

/-- Pandas errors surfaced by preprocess.py before any output is written,
grouped under the taxonomy name FormatError the specification gives them:
read_csv on a file with no records raises EmptyDataError, and concat over an
empty sequence of tables raises a no-objects ValueError. -/
inductive FormatError where
  | emptyDataError
  | noObjectsToConcatenate
  deriving DecidableEq, Repr

/-- pd.read_csv of one input file, given as its parsed record list: a file
yielding no records raises, otherwise the records are returned. -/
def read_csv {α : Type} (file : List (IrisRow α)) :
    Except FormatError (List (IrisRow α)) :=
  if file.isEmpty then Except.error FormatError.emptyDataError
  else Except.ok file

/-- pd.concat over the generator of read_csv results for the globbed csv
files: fails on an empty file list, and propagates the first read_csv
failure while concatenating the rest. -/
def concatCsvFiles {α : Type} (all_files : List (List (IrisRow α))) :
    Except FormatError (List (IrisRow α)) :=
  if all_files.isEmpty then Except.error FormatError.noObjectsToConcatenate
  else do
    let tables ← all_files.mapM read_csv
    pure tables.flatten

/-- Linear congruential step used to drive the modelled seeded shuffle. -/
def lcgNext (s : Nat) : Nat :=
  (s * 1103515245 + 12345) % 2 ^ 31

/-- Seed-driven selection of the remaining elements one by one, the fuel
argument bounding the recursion by the list length.  Produces a permutation
of the input determined entirely by the seed. -/
def drawAll {α : Type} : Nat → Nat → List α → List α
  | _, 0, _ => []
  | _, _ + 1, [] => []
  | s, fuel + 1, x :: xs =>
    let ys := x :: xs
    let i := s % ys.length
    ys.get ⟨i, Nat.mod_lt s (Nat.succ_pos xs.length)⟩ ::
      drawAll (lcgNext s) fuel (ys.eraseIdx i)

/-- Modelled from the spec: sklearn.model_selection.train_test_split is
library code not present in src/; the spec describes it as a deterministic
split at the fixed ratio driven entirely by the fixed random seed.  The
permutation of indices is a function of the seed alone; random_state = None
falls back to the ambient entropy of the process, and a given random_state
makes the result independent of that entropy.  Returns
(X_train, X_test, y_train, y_test) with ceil(test_size * n) test rows. -/
def train_test_split {α β : Type} (entropy : Nat) (X : List α) (y : List β)
    (test_size : ℚ) (random_state : Option Nat) :
    List α × List α × List β × List β :=
  let seed := random_state.getD entropy
  let n := X.length
  let nTest := (test_size * (n : ℚ)).ceil.toNat
  let perm := drawAll seed n (List.range n)
  let testIdx := perm.take nTest
  let trainIdx := perm.drop nTest
  (trainIdx.filterMap (fun i => X[i]?), testIdx.filterMap (fun i => X[i]?),
    trainIdx.filterMap (fun i => y[i]?), testIdx.filterMap (fun i => y[i]?))

/-- Four partitions written by preprocess.py: X_train.sav and Y_train.sav
into train_dir, X_test.sav and Y_test.sav into test_dir. -/
structure PreprocessOutput (α : Type) where
  xTrain : List (List α)
  xTest : List (List α)
  yTrain : List α
  yTest : List α
  deriving DecidableEq, Repr

/-- preprocess.py main flow: read and concatenate the globbed csv files,
slice features X = array[:,0:4] and labels y = array[:,4], and split with
test_size=0.20 and random_state=1.  Only a successful result carries the
four partitions that the script then writes; an error occurs before any
write. -/
def preprocessStage {α : Type} (entropy : Nat)
    (all_files : List (List (IrisRow α))) :
    Except FormatError (PreprocessOutput α) := do
  let dataset ← concatCsvFiles all_files
  let X := dataset.map IrisRow.features
  let y := dataset.map IrisRow.classLabel
  let split := train_test_split entropy X y (mkRat 20 100) (some 1)
  pure ⟨split.1, split.2.1, split.2.2.1, split.2.2.2⟩

/-- C6: preprocess.py is deterministic.  The split ratio and the random seed
are fixed in the script, so two executions on the same input files agree on
all four output partitions whatever ambient entropy each process has. -/
theorem preprocessStage_deterministic {α : Type} (entropy₁ entropy₂ : Nat)
    (all_files : List (List (IrisRow α))) :
    preprocessStage entropy₁ all_files = preprocessStage entropy₂ all_files :=
  rfl

/-- C7: on an input directory with no parseable records, either because the
glob matches no csv files or because every matched file yields no records,
preprocess.py fails with a FormatError and produces no output partitions. -/
theorem preprocessStage_no_records_error {α : Type} (entropy : Nat)
    (all_files : List (List (IrisRow α)))
    (h : all_files = [] ∨ ∀ f ∈ all_files, f = []) :
    ∃ e, preprocessStage entropy all_files = Except.error e := by
  rcases h with h | h
  · subst h
    exact ⟨FormatError.noObjectsToConcatenate, rfl⟩
  · cases all_files with
    | nil => exact ⟨FormatError.noObjectsToConcatenate, rfl⟩
    | cons f rest =>
      have hf : f = [] := h f (List.mem_cons_self f rest)
      subst hf
      exact ⟨FormatError.emptyDataError, rfl⟩

/-- C7 witness: a directory with a single csv file yielding no records fails
with a FormatError. -/
theorem preprocessStage_no_records_error_witness :
    ∃ e, preprocessStage (α := String) 0 [[]] = Except.error e :=
  preprocessStage_no_records_error 0 [[]]
    (Or.inr fun f hf => by simpa using hf)

/-! ## Secret-poller sidecar (the az container of the webapp Deployment)

The container first writes the placeholder line to /data/index.html, then
after the identity-token and az login wait loops enters the endless loop
whose body is az keyvault secret list redirected into /data/index.html
followed by sleep 3600. -/

/-- Outcome of one az keyvault secret list invocation. -/
inductive PollResult where
  | success (listing : String)
  | failure
  deriving DecidableEq, Repr

/-- Standard output of the az invocation for one poll attempt: the secret
listing on success; on failure az writes its diagnostics to standard error
and nothing to standard output. -/
def pollStdout : PollResult → String
  | PollResult.success s => s
  | PollResult.failure => ""

/-- One loop iteration.  The shell redirection with a single greater-than
sign truncates /data/index.html before the az command runs and leaves the
command standard output as the whole file content, whatever the exit status
of the command; the previous content does not survive the redirection. -/
def sidecarStep (_prev : String) (p : PollResult) : String :=
  pollStdout p

/-- File content of /data/index.html after the initial placeholder write and
a sequence of loop iterations. -/
def sidecarFile (polls : List PollResult) : String :=
  polls.foldl sidecarStep "Unable to list secrets in key vault"

/-- C5 counterexample: after a successful poll that wrote a listing, a
failed poll does not leave that listing in place: the redirection has
truncated the file, so the content is the empty standard output of the
failed attempt rather than the stale listing the claim predicts. -/
theorem sidecarFile_counterexample :
    sidecarFile [PollResult.success "secrets-v1", PollResult.failure] = ""
    ∧ sidecarFile [PollResult.success "secrets-v1", PollResult.failure] ≠
      "secrets-v1" := by
  exact ⟨rfl, by decide⟩

/-- C5 amended: the served file always holds the standard output of the most
recent poll attempt, successful or not, and holds the initial placeholder
string before the first attempt. -/
theorem sidecarFile_last_attempt :
    sidecarFile [] = "Unable to list secrets in key vault"
    ∧ ∀ (polls : List PollResult) (p : PollResult),
      sidecarFile (polls ++ [p]) = pollStdout p := by
  refine ⟨rfl, fun polls p => ?_⟩
  rw [sidecarFile, List.foldl_append]
  rfl

/-! ## Scoring endpoint (score.py) -/

/-- JSON values as produced by json.loads. -/
inductive Json where
  | null
  | bool (b : Bool)
  | num (q : ℚ)
  | str (s : String)
  | arr (elems : List Json)
  | obj (fields : List (String × Json))

/-- Errors a run invocation can raise: json.loads on a malformed body, the
subscript of the key data on a value that is not an object holding it, and
numeric conversion of a data entry that is not a number. -/
inductive ScoreError where
  | jsonDecodeError
  | lookupError
  | typeError
  deriving DecidableEq, Repr

/-- State the init function of score.py leaves behind: the deserialized
model, here its prediction function on one feature vector.  Nothing else in
the module is mutable. -/
structure ScoreState (α : Type) where
  model : List ℚ → α

/-- Subscript lookup of a key in a parsed JSON object. -/
def lookupField : List (String × Json) → String → Option Json
  | [], _ => none
  | (k, v) :: rest, key => if k = key then some v else lookupField rest key

/-- Numeric reading of one entry of the data array. -/
def asNum : Json → Option ℚ
  | Json.num q => some q
  | _ => none

/-- score.py run handler.  The raw body is given as the outcome of
json.loads: none for a malformed body.  A parsed object with a numeric data
array is turned into np.array, predicted on as the single sample of a batch,
and the prediction list of that one label is returned; every failure leaves
the loaded model untouched.  The handler never writes the global model, so
the state is returned unchanged on every path. -/
def scoreRun {α : Type} (st : ScoreState α) (raw_data : Option Json) :
    Except ScoreError (List α) × ScoreState α :=
  match raw_data with
  | none => (Except.error ScoreError.jsonDecodeError, st)
  | some (Json.obj fields) =>
    match lookupField fields "data" with
    | some (Json.arr elems) =>
      match elems.mapM asNum with
      | some data => (Except.ok [st.model data], st)
      | none => (Except.error ScoreError.typeError, st)
    | some _ => (Except.error ScoreError.typeError, st)
    | none => (Except.error ScoreError.lookupError, st)
  | some _ => (Except.error ScoreError.lookupError, st)

/-- C8: a well-formed body holding a numeric data feature vector yields
exactly one predicted label and leaves the model state unchanged; a
malformed body yields an error with the state unchanged; and a request
served after a malformed request gives the same answer as without it. -/
theorem scoreRun_wellformed_malformed {α : Type} (st : ScoreState α)
    (fields : List (String × Json)) (elems : List Json) (data : List ℚ)
    (hfield : lookupField fields "data" = some (Json.arr elems))
    (hnum : elems.mapM asNum = some data) :
    scoreRun st (some (Json.obj fields)) = (Except.ok [st.model data], st)
    ∧ scoreRun st none = (Except.error ScoreError.jsonDecodeError, st)
    ∧ ∀ req, scoreRun (scoreRun st none).2 req = scoreRun st req := by
  refine ⟨?_, rfl, fun req => rfl⟩
  simp only [scoreRun, hfield, hnum]

/-- C8 witness: a model classifying every sample as virginica answers the
request body with data [6.7, 3.0, 5.2, 2.3] with the single label
virginica, a malformed body is rejected with the decode error, and the
malformed request does not disturb the following one. -/
theorem scoreRun_wellformed_malformed_witness :
    scoreRun ⟨fun _ => "virginica"⟩
        (some (Json.obj [("data", Json.arr [Json.num (mkRat 67 10),
          Json.num 3, Json.num (mkRat 52 10), Json.num (mkRat 23 10)])])) =
      (Except.ok ["virginica"], ⟨fun _ => "virginica"⟩)
    ∧ scoreRun (⟨fun _ => "virginica"⟩ : ScoreState String) none =
      (Except.error ScoreError.jsonDecodeError, ⟨fun _ => "virginica"⟩)
    ∧ ∀ req, scoreRun
        (scoreRun (⟨fun _ => "virginica"⟩ : ScoreState String) none).2 req =
        scoreRun ⟨fun _ => "virginica"⟩ req :=
  scoreRun_wellformed_malformed ⟨fun _ => "virginica"⟩
    [("data", Json.arr [Json.num (mkRat 67 10), Json.num 3,
      Json.num (mkRat 52 10), Json.num (mkRat 23 10)])]
    [Json.num (mkRat 67 10), Json.num 3, Json.num (mkRat 52 10),
      Json.num (mkRat 23 10)]
    [mkRat 67 10, 3, mkRat 52 10, mkRat 23 10] rfl rfl

/-! ## Five-stage pipeline (PythonScriptStep declarations and Pipeline)

The notebook declares five PythonScriptStep values and submits them as one
Pipeline.  The input and output lists below transcribe the inputs= and
outputs= arguments of each declaration; allow_reuse transcribes the
allow_reuse= argument.  Execution itself is performed by the external
scheduling service, so the orchestrator semantics further down is modelled
from the specification. -/

/-- Names of the five pipeline steps. -/
inductive StageName where
  | ingest
  | preprocess
  | train
  | evaluate
  | deploy
  deriving DecidableEq, Repr, Fintype

/-- PipelineData objects and the datastore reference passed between steps. -/
inductive DataRef where
  | datastore_reference
  | iris_data_dir
  | train_dir
  | test_dir
  | model_dir
  | accuracy_dir
  | output_dir
  deriving DecidableEq, Repr

/-- inputs= list of each PythonScriptStep declaration. -/
def stepInputs : StageName → List DataRef
  | StageName.ingest => [DataRef.datastore_reference]
  | StageName.preprocess => [DataRef.iris_data_dir]
  | StageName.train => [DataRef.train_dir]
  | StageName.evaluate => [DataRef.test_dir, DataRef.model_dir]
  | StageName.deploy =>
    [DataRef.test_dir, DataRef.accuracy_dir, DataRef.model_dir]

/-- outputs= list of each PythonScriptStep declaration. -/
def stepOutputs : StageName → List DataRef
  | StageName.ingest => [DataRef.iris_data_dir]
  | StageName.preprocess => [DataRef.train_dir, DataRef.test_dir]
  | StageName.train => [DataRef.model_dir]
  | StageName.evaluate => [DataRef.accuracy_dir]
  | StageName.deploy => [DataRef.output_dir]

/-- allow_reuse= argument of each PythonScriptStep declaration. -/
def allowReuse : StageName → Bool
  | StageName.train => false
  | _ => true

/-- steps= list of the Pipeline value, in declaration order. -/
def pipelineSteps : List StageName :=
  [StageName.ingest, StageName.preprocess, StageName.train,
    StageName.evaluate, StageName.deploy]

/-- Direct data dependency: some input of s is an output of t. -/
def dependsOn (s t : StageName) : Bool :=
  (stepInputs s).any fun r => (stepOutputs t).contains r

/-- Data dependency through a chain of at most fuel intermediate stages. -/
def dependsWithin : Nat → StageName → StageName → Bool
  | 0, s, t => dependsOn s t
  | k + 1, s, t =>
    dependsOn s t ||
      pipelineSteps.any fun u => dependsOn s u && dependsWithin k u t

/-- Transitive data dependency; five stages make chains of length five
exhaustive. -/
def dependsTransOn (s t : StageName) : Bool :=
  dependsWithin 5 s t

/-- Status of a Stage Execution. -/
inductive Status where
  | pending
  | running
  | succeeded
  | failed
  | reused
  deriving DecidableEq, Repr, Fintype

/-- Stages whose outputs= declaration carries the given Data Reference. -/
def producers (r : DataRef) : List StageName :=
  pipelineSteps.filter fun t => (stepOutputs t).contains r

/-- Modelled from the spec: the Run Orchestrator executing a submitted
Pipeline lives in the external scheduling service, only the step
declarations are in src/.  A stage is started only when every producer of
every one of its inputs ended succeeded or reused. -/
def upstreamOk (st : StageName → Status) (s : StageName) : Bool :=
  (stepInputs s).all fun r =>
    (producers r).all fun t =>
      st t == Status.succeeded || st t == Status.reused

/-- Modelled from the spec: one scheduling decision of the Run Orchestrator
for stage s.  When the producers of its inputs all ended well the stage is
started and terminates reused (when the allow_reuse policy is set and a
matching prior output exists, given by prior) or succeeded or failed (by the
execution result, given by result); otherwise the stage is never started and
stays in its pending status. -/
def runStage (prior result : StageName → Bool) (st : StageName → Status)
    (s : StageName) : StageName → Status :=
  if upstreamOk st s then
    fun x =>
      if x = s then
        if allowReuse s && prior s then Status.reused
        else if result s then Status.succeeded
        else Status.failed
      else st x
  else st

/-- Modelled from the spec: the Run Orchestrator sequences the submitted
steps in resolver order, every status starting at pending. -/
def runPipeline (prior result : StageName → Bool) : StageName → Status :=
  pipelineSteps.foldl (runStage prior result) fun _ => Status.pending

set_option maxHeartbeats 4000000 in
/-- C9: in every run, over all reuse availabilities and execution results,
a stage that transitively depends on a failed stage never leaves pending. -/
theorem runPipeline_failure_keeps_dependents_pending
    (prior result : StageName → Bool) (s t : StageName)
    (hdep : dependsTransOn s t = true)
    (hfail : runPipeline prior result t = Status.failed) :
    runPipeline prior result s = Status.pending := by
  revert prior result s t
  decide

/-- C9 witness: when the preprocess execution fails and everything else
would succeed without reuse, the train stage stays pending. -/
theorem runPipeline_failure_keeps_dependents_pending_witness :
    runPipeline (fun _ => false)
        (fun x => !(x == StageName.preprocess)) StageName.train =
      Status.pending :=
  runPipeline_failure_keeps_dependents_pending (fun _ => false)
    (fun x => !(x == StageName.preprocess)) StageName.train
    StageName.preprocess (by decide) (by decide)

end AzureLab
